import Mathlib

/-!
Verification of `backend_server.py` (avd1729/Sentinel): a minimal HTTP echo
server.  The handler logic (`BackendHandler.do_GET`, `BackendHandler.do_POST`),
the server construction (`run_backend`) and the command-line entry point
(`__main__`) are embedded shallowly below; the theorems at the end settle the
spec claims against this embedding.
-/

namespace Sentinel

/-- A JSON value as it appears in the response dictionaries built by the
handlers: strings, Python ints, and the `time.time()` timestamp (modelled as an
abstract clock reading passed to the handler). -/
inductive JVal where
  | jstr (s : String)
  | jint (n : Int)
  | jtime (t : Int)
deriving DecidableEq, Repr

/-- The Python exception raised by `int(...)` on an unparseable string. -/
inductive PyError where
  | valueError
deriving DecidableEq, Repr

/-- Decimal digit accumulator: value of a digit string, `none` if any
character is not an ASCII digit. -/
def decDigitsAux : List Char → Nat → Option Nat
  | [], acc => some acc
  | c :: cs, acc =>
      if c.isDigit then decDigitsAux cs (acc * 10 + (c.toNat - 48)) else none

/-- Value of a nonempty decimal digit string, `none` otherwise. -/
def decDigits : List Char → Option Nat
  | [] => none
  | c :: cs => decDigitsAux (c :: cs) 0

/-- Surrounding-whitespace removal, as Python `int(...)` performs before
parsing. -/
def stripEnds (cs : List Char) : List Char :=
  ((cs.dropWhile Char.isWhitespace).reverse.dropWhile Char.isWhitespace).reverse

/-- Python `int(s)` on a string: strips surrounding whitespace, accepts an
optional sign followed by decimal digits; `none` models the `ValueError`
raised on any other input. -/
def pyInt (s : String) : Option Int :=
  match stripEnds s.data with
  | '+' :: cs => (decDigits cs).map (fun n => (n : Int))
  | '-' :: cs => (decDigits cs).map (fun n => -(n : Int))
  | cs => (decDigits cs).map (fun n => (n : Int))

/-- Python `BufferedReader.read(n)` on the request body stream (`http.server`
wraps the socket in a `BufferedReader`): a size below `-1` raises
`ValueError`, exactly `-1` reads everything up to EOF, and a non-negative
`n` reads at most `n` bytes (fewer if the stream ends first). The stream
models the bytes the client actually sent before EOF. -/
def pyRead (stream : List Nat) (n : Int) : Except PyError (List Nat) :=
  if n < -1 then Except.error PyError.valueError
  else if n < 0 then Except.ok stream
  else Except.ok (stream.take n.toNat)

/-- Case-insensitive string comparison, as header names are matched by
`email.message.Message.get`. -/
def eqCaseInsensitive (a b : String) : Bool :=
  a.data.map Char.toLower == b.data.map Char.toLower

/-- Case-insensitive header lookup, as `email.message.Message.get`: returns
the value of the first header whose name matches up to ASCII case. -/
def headersGet (headers : List (String × String)) (name : String) :
    Option String :=
  (headers.find? (fun p => eqCaseInsensitive p.1 name)).map (fun p => p.2)

/-- The value of `int(self.headers.get('Content-Length', 0))` in `do_POST`:
a missing header gives the integer default `0`; a present header goes through
`int(...)`, where `none` models the raised `ValueError`. -/
def contentLength (headers : List (String × String)) : Option Int :=
  match headersGet headers "Content-Length" with
  | none => some 0
  | some s => pyInt s

/-- The identity the server carries for its lifetime: `backend_name` is
assigned in `run_backend`, `server_port` is recorded by `HTTPServer` when it
binds the requested port. -/
structure ServerState where
  backend_name : String
  server_port : Int
deriving DecidableEq, Repr

/-- One incoming HTTP request as the handler sees it: the raw request target
(`self.path`), the header list, and the body bytes available on `self.rfile`
before EOF. -/
structure Request where
  path : String
  headers : List (String × String)
  rfile : List Nat
deriving DecidableEq, Repr

/-- `run_backend(port, name)` builds `HTTPServer(('localhost', port), ...)`
and sets `server.backend_name = name`; binding a valid port records it in
`server.server_port`. -/
def run_backend_state (port : Int) (name : String) : ServerState :=
  { backend_name := name, server_port := port }

/-- `BackendHandler.do_GET`: builds the response dictionary, in the key order
of the source literal.  The request body is never touched. -/
def do_GET (srv : ServerState) (req : Request) (now : Int) :
    List (String × JVal) :=
  [("backend", JVal.jstr srv.backend_name),
   ("port", JVal.jint srv.server_port),
   ("path", JVal.jstr req.path),
   ("method", JVal.jstr "GET"),
   ("timestamp", JVal.jtime now)]

/-- `BackendHandler.do_POST`: parses `Content-Length` (raising `ValueError`
when present but unparseable), then calls `self.rfile.read` on it (which
itself raises `ValueError` for sizes below `-1`), and builds the response
dictionary.  Returns the bytes actually read together with the dictionary;
note the `body_length` field carries the parsed `content_length`, not the
length of the bytes read. -/
def do_POST (srv : ServerState) (req : Request) (now : Int) :
    Except PyError (List Nat × List (String × JVal)) :=
  match contentLength req.headers with
  | none => Except.error PyError.valueError
  | some cl =>
      match pyRead req.rfile cl with
      | Except.error e => Except.error e
      | Except.ok body =>
          Except.ok (body,
            [("backend", JVal.jstr srv.backend_name),
             ("port", JVal.jint srv.server_port),
             ("path", JVal.jstr req.path),
             ("method", JVal.jstr "POST"),
             ("body_length", JVal.jint cl),
             ("timestamp", JVal.jtime now)])

/-- Field access on a response dictionary (first occurrence of the key). -/
def lookupField (resp : List (String × JVal)) (k : String) : Option JVal :=
  (resp.find? (fun p => p.1 == k)).map (fun p => p.2)

/-- The two lines printed by the usage branch of `__main__`. -/
def usageLines : List String :=
  ["Usage: python backend_server.py <port> [name]",
   "Example: python backend_server.py 3000 backend-1"]

/-- Outcome of the `__main__` block: usage message and `sys.exit(1)`, an
uncaught `ValueError` from `int(sys.argv[1])`, or a started server. -/
inductive MainResult where
  | usageExit (printed : List String) (code : Nat)
  | valueError
  | started (port : Int) (name : String)
deriving DecidableEq, Repr

/-- The `__main__` block: `argv` is `sys.argv` including the script name.
Fewer than two entries prints the usage lines and exits with status 1;
otherwise `int(sys.argv[1])` either raises `ValueError` or yields the port,
and the name defaults to `backend-<port>` when absent. -/
def mainEntry : List String → MainResult
  | _ :: arg1 :: rest =>
      match pyInt arg1 with
      | none => MainResult.valueError
      | some port =>
          MainResult.started port
            (match rest with
             | n :: _ => n
             | [] => "backend-" ++ toString port)
  | _ => MainResult.usageExit usageLines 1

/-! Helper lemmas shared by the claim theorems. -/

/-- A missing `Content-Length` header makes `headers.get` return the integer
default `0`. -/
theorem contentLength_of_missing (headers : List (String × String))
    (h : headersGet headers "Content-Length" = none) :
    contentLength headers = some 0 := by
  unfold contentLength; rw [h]

/-- A present `Content-Length` header is fed through `int(...)`. -/
theorem contentLength_of_present (headers : List (String × String)) (s : String)
    (h : headersGet headers "Content-Length" = some s) :
    contentLength headers = pyInt s := by
  unfold contentLength; rw [h]

/-- A non-negative read size returns a prefix of the stream. -/
theorem pyRead_of_nonneg (stream : List Nat) (n : Int) (h : 0 ≤ n) :
    pyRead stream n = Except.ok (stream.take n.toNat) := by
  unfold pyRead
  rw [if_neg (by omega), if_neg (by omega)]

/-- `read(-1)` drains the stream to EOF. -/
theorem pyRead_neg_one (stream : List Nat) :
    pyRead stream (-1) = Except.ok stream := rfl

/-- Any read size below `-1` makes `BufferedReader.read` raise
`ValueError`. -/
theorem pyRead_of_lt_neg_one (stream : List Nat) (n : Int) (h : n < -1) :
    pyRead stream n = Except.error PyError.valueError := by
  unfold pyRead
  rw [if_pos h]

/-- When `int(...)` raises, `do_POST` propagates the `ValueError`. -/
theorem do_POST_error (srv : ServerState) (req : Request) (now : Int)
    (h : contentLength req.headers = none) :
    do_POST srv req now = Except.error PyError.valueError := by
  unfold do_POST; rw [h]

/-- When the body read raises, `do_POST` propagates the error. -/
theorem do_POST_read_error (srv : ServerState) (req : Request) (now cl : Int)
    (e : PyError) (h : contentLength req.headers = some cl)
    (hr : pyRead req.rfile cl = Except.error e) :
    do_POST srv req now = Except.error e := by
  unfold do_POST; simp only [h]; rw [hr]

/-- When `Content-Length` parses to `cl` and the body read succeeds,
`do_POST` answers with the response dictionary of the source. -/
theorem do_POST_ok (srv : ServerState) (req : Request) (now cl : Int)
    (body : List Nat) (h : contentLength req.headers = some cl)
    (hr : pyRead req.rfile cl = Except.ok body) :
    do_POST srv req now = Except.ok (body,
      [("backend", JVal.jstr srv.backend_name),
       ("port", JVal.jint srv.server_port),
       ("path", JVal.jstr req.path),
       ("method", JVal.jstr "POST"),
       ("body_length", JVal.jint cl),
       ("timestamp", JVal.jtime now)]) := by
  unfold do_POST; simp only [h]; rw [hr]

/-- Inversion: any successful `do_POST` response comes from a parsed
`Content-Length` value, a successful body read, and has the fixed
dictionary shape. -/
theorem do_POST_ok_inv (srv : ServerState) (req : Request) (now : Int)
    (body : List Nat) (resp : List (String × JVal))
    (h : do_POST srv req now = Except.ok (body, resp)) :
    ∃ cl, contentLength req.headers = some cl ∧
      pyRead req.rfile cl = Except.ok body ∧
      resp = [("backend", JVal.jstr srv.backend_name),
              ("port", JVal.jint srv.server_port),
              ("path", JVal.jstr req.path),
              ("method", JVal.jstr "POST"),
              ("body_length", JVal.jint cl),
              ("timestamp", JVal.jtime now)] := by
  cases hcl : contentLength req.headers with
  | none =>
      rw [do_POST_error srv req now hcl] at h
      exact Except.noConfusion h
  | some cl =>
      cases hrd : pyRead req.rfile cl with
      | error e =>
          rw [do_POST_read_error srv req now cl e hcl hrd] at h
          exact Except.noConfusion h
      | ok b =>
          rw [do_POST_ok srv req now cl b hcl hrd] at h
          simp only [Except.ok.injEq, Prod.mk.injEq] at h
          exact ⟨cl, rfl, by rw [hrd, h.1], h.2.symm⟩

/-! Claim theorems. -/

/-- C1 counterexample: with `Content-Length: 5` but only 3 bytes sent before
EOF, the handler reads 3 bytes yet the response reports `body_length = 5`,
so `body_length` is not the number of bytes actually read. -/
theorem c1_counterexample :
    do_POST { backend_name := "b1", server_port := 3000 }
        { path := "/upload", headers := [("Content-Length", "5")],
          rfile := [104, 105, 33] } 0
      = Except.ok ([104, 105, 33],
        [("backend", JVal.jstr "b1"), ("port", JVal.jint 3000),
         ("path", JVal.jstr "/upload"), ("method", JVal.jstr "POST"),
         ("body_length", JVal.jint 5), ("timestamp", JVal.jtime 0)])
    ∧ lookupField
        [("backend", JVal.jstr "b1"), ("port", JVal.jint 3000),
         ("path", JVal.jstr "/upload"), ("method", JVal.jstr "POST"),
         ("body_length", JVal.jint 5), ("timestamp", JVal.jtime 0)]
        "body_length" = some (JVal.jint 5)
    ∧ ([104, 105, 33] : List Nat).length = 3
    ∧ (5 : Int) ≠ (3 : Int) :=
  ⟨rfl, rfl, rfl, by decide⟩

/-- C1 (amended): every POST request that produces a response reports as
`body_length` the integer parsed from the `Content-Length` header (0 when
absent) — the claimed header value, not the number of bytes actually read,
which is only bounded above by it when it is non-negative. -/
theorem c1_body_length_is_content_length (srv : ServerState) (req : Request)
    (now : Int) (body : List Nat) (resp : List (String × JVal))
    (h : do_POST srv req now = Except.ok (body, resp)) :
    ∃ cl, contentLength req.headers = some cl ∧
      lookupField resp "body_length" = some (JVal.jint cl) ∧
      (0 ≤ cl → (body.length : Int) ≤ cl) := by
  obtain ⟨cl, hcl, hrd, hr⟩ := do_POST_ok_inv _ _ _ _ _ h
  subst hr
  refine ⟨cl, hcl, rfl, ?_⟩
  intro hcl0
  rw [pyRead_of_nonneg req.rfile cl hcl0] at hrd
  have hb : body = req.rfile.take cl.toNat := by
    injection hrd with h1; exact h1.symm
  subst hb
  have h1 : (req.rfile.take cl.toNat).length ≤ cl.toNat :=
    List.length_take_le _ _
  have h2 : (cl.toNat : Int) = cl := Int.toNat_of_nonneg hcl0
  exact le_trans (by exact_mod_cast h1) (le_of_eq h2)

/-- C1 witness: the amended theorem at a concrete request with
`Content-Length: 5` and a 3-byte body stream, where the bound 3 ≤ 5 is
strict. -/
theorem c1_body_length_is_content_length_witness :
    do_POST { backend_name := "b1", server_port := 3000 }
        { path := "/upload", headers := [("Content-Length", "5")],
          rfile := [104, 105, 33] } 0
      = Except.ok ([104, 105, 33],
        [("backend", JVal.jstr "b1"), ("port", JVal.jint 3000),
         ("path", JVal.jstr "/upload"), ("method", JVal.jstr "POST"),
         ("body_length", JVal.jint 5), ("timestamp", JVal.jtime 0)]) ∧
    (∃ cl, contentLength [("Content-Length", "5")] = some cl ∧
      lookupField
        [("backend", JVal.jstr "b1"), ("port", JVal.jint 3000),
         ("path", JVal.jstr "/upload"), ("method", JVal.jstr "POST"),
         ("body_length", JVal.jint 5), ("timestamp", JVal.jtime 0)]
        "body_length" = some (JVal.jint cl) ∧
      (0 ≤ cl → (([104, 105, 33] : List Nat).length : Int) ≤ cl)) :=
  ⟨rfl, c1_body_length_is_content_length
    { backend_name := "b1", server_port := 3000 }
    { path := "/upload", headers := [("Content-Length", "5")],
      rfile := [104, 105, 33] } 0 [104, 105, 33]
    [("backend", JVal.jstr "b1"), ("port", JVal.jint 3000),
     ("path", JVal.jstr "/upload"), ("method", JVal.jstr "POST"),
     ("body_length", JVal.jint 5), ("timestamp", JVal.jtime 0)] rfl⟩

/-- C2 counterexample: a POST carrying `Content-Length: abc` makes the
handler raise `ValueError` at the `int(...)` conversion; it does not return
a 200 response with `body_length = 0`. -/
theorem c2_counterexample :
    do_POST { backend_name := "b1", server_port := 3000 }
        { path := "/ingest", headers := [("Content-Length", "abc")],
          rfile := [1, 2, 3] } 0
      = Except.error PyError.valueError := rfl

/-- C2 (amended): for every POST request whose `Content-Length` header is
present but not parseable as an integer, the unguarded `int(...)` raises an
uncaught `ValueError`: no body bytes are read and no response is produced. -/
theorem c2_unparseable_content_length_raises (srv : ServerState)
    (req : Request) (now : Int) (s : String)
    (hs : headersGet req.headers "Content-Length" = some s)
    (hp : pyInt s = none) :
    do_POST srv req now = Except.error PyError.valueError := by
  apply do_POST_error
  rw [contentLength_of_present req.headers s hs]
  exact hp

/-- C2 witness: the amended theorem at a concrete request with
`Content-Length: xyz`. -/
theorem c2_unparseable_content_length_raises_witness :
    headersGet [("Content-Length", "xyz")] "Content-Length" = some "xyz" ∧
    pyInt "xyz" = none ∧
    do_POST { backend_name := "b2", server_port := 3001 }
        { path := "/p", headers := [("Content-Length", "xyz")], rfile := [9] } 1
      = Except.error PyError.valueError :=
  ⟨rfl, by decide, c2_unparseable_content_length_raises
    { backend_name := "b2", server_port := 3001 }
    { path := "/p", headers := [("Content-Length", "xyz")], rfile := [9] }
    1 "xyz" rfl (by decide)⟩

/-- C3: a POST with no `Content-Length` header reads zero body bytes and its
response has `body_length = 0`. -/
theorem c3_missing_content_length_zero (srv : ServerState) (req : Request)
    (now : Int) (h : headersGet req.headers "Content-Length" = none) :
    ∃ resp, do_POST srv req now = Except.ok ([], resp) ∧
      lookupField resp "body_length" = some (JVal.jint 0) := by
  refine ⟨[("backend", JVal.jstr srv.backend_name),
           ("port", JVal.jint srv.server_port),
           ("path", JVal.jstr req.path),
           ("method", JVal.jstr "POST"),
           ("body_length", JVal.jint 0),
           ("timestamp", JVal.jtime now)], ?_, rfl⟩
  exact do_POST_ok srv req now 0 [] (contentLength_of_missing req.headers h)
    rfl

/-- C3 witness: a concrete POST with no `Content-Length` header. -/
theorem c3_missing_content_length_zero_witness :
    headersGet [("Host", "localhost")] "Content-Length" = none ∧
    (∃ resp, do_POST { backend_name := "b3", server_port := 3002 }
        { path := "/q", headers := [("Host", "localhost")],
          rfile := [7, 8] } 2
        = Except.ok ([], resp) ∧
      lookupField resp "body_length" = some (JVal.jint 0)) :=
  ⟨by decide, c3_missing_content_length_zero
    { backend_name := "b3", server_port := 3002 }
    { path := "/q", headers := [("Host", "localhost")], rfile := [7, 8] }
    2 (by decide)⟩

/-- C4: every response from a server started with a valid port `P` and
name `N` carries `backend = N` and `port = P`: the GET response does, and
any successful POST response does, so the two identity fields are the same
across all responses of one running instance. -/
theorem c4_identity_constant (P : Int) (N : String) (req req2 : Request)
    (now now2 : Int) (body : List Nat) (resp : List (String × JVal))
    (_hP : 0 < P ∧ P < 65536)
    (hpost : do_POST (run_backend_state P N) req2 now2
      = Except.ok (body, resp)) :
    lookupField (do_GET (run_backend_state P N) req now) "backend"
        = some (JVal.jstr N) ∧
    lookupField (do_GET (run_backend_state P N) req now) "port"
        = some (JVal.jint P) ∧
    lookupField resp "backend" = some (JVal.jstr N) ∧
    lookupField resp "port" = some (JVal.jint P) := by
  obtain ⟨cl, hcl, hb, hr⟩ := do_POST_ok_inv _ _ _ _ _ hpost
  subst hr
  exact ⟨rfl, rfl, rfl, rfl⟩

/-- C4 witness: the theorem at port 3000, name `backend-1`, one GET and one
POST request. -/
theorem c4_identity_constant_witness :
    ((0 : Int) < 3000 ∧ (3000 : Int) < 65536) ∧
    (lookupField (do_GET (run_backend_state 3000 "backend-1")
        { path := "/health", headers := [], rfile := [] } 5) "backend"
        = some (JVal.jstr "backend-1") ∧
     lookupField (do_GET (run_backend_state 3000 "backend-1")
        { path := "/health", headers := [], rfile := [] } 5) "port"
        = some (JVal.jint 3000) ∧
     lookupField
        [("backend", JVal.jstr "backend-1"), ("port", JVal.jint 3000),
         ("path", JVal.jstr "/ingest"), ("method", JVal.jstr "POST"),
         ("body_length", JVal.jint 0), ("timestamp", JVal.jtime 6)]
        "backend" = some (JVal.jstr "backend-1") ∧
     lookupField
        [("backend", JVal.jstr "backend-1"), ("port", JVal.jint 3000),
         ("path", JVal.jstr "/ingest"), ("method", JVal.jstr "POST"),
         ("body_length", JVal.jint 0), ("timestamp", JVal.jtime 6)]
        "port" = some (JVal.jint 3000)) :=
  ⟨by decide, c4_identity_constant 3000 "backend-1"
    { path := "/health", headers := [], rfile := [] }
    { path := "/ingest", headers := [], rfile := [] } 5 6 []
    [("backend", JVal.jstr "backend-1"), ("port", JVal.jint 3000),
     ("path", JVal.jstr "/ingest"), ("method", JVal.jstr "POST"),
     ("body_length", JVal.jint 0), ("timestamp", JVal.jtime 6)]
    (by decide) rfl⟩

/-- C5: the `path` field of every response is the raw request target copied
verbatim: the GET response carries `req.path` unchanged, and so does any
successful POST response. -/
theorem c5_path_verbatim (srv : ServerState) (req : Request) (now : Int)
    (body : List Nat) (resp : List (String × JVal))
    (hpost : do_POST srv req now = Except.ok (body, resp)) :
    lookupField (do_GET srv req now) "path" = some (JVal.jstr req.path) ∧
    lookupField resp "path" = some (JVal.jstr req.path) := by
  obtain ⟨cl, hcl, hb, hr⟩ := do_POST_ok_inv _ _ _ _ _ hpost
  subst hr
  exact ⟨rfl, rfl⟩

/-- C5 witness: the theorem at a request target with a query string and
percent-encoded characters, which is echoed byte-for-byte. -/
theorem c5_path_verbatim_witness :
    do_POST { backend_name := "b5", server_port := 3004 }
        { path := "/a%20b/../c?x=1&y=%2F", headers := [], rfile := [] } 3
      = Except.ok ([],
        [("backend", JVal.jstr "b5"), ("port", JVal.jint 3004),
         ("path", JVal.jstr "/a%20b/../c?x=1&y=%2F"),
         ("method", JVal.jstr "POST"),
         ("body_length", JVal.jint 0), ("timestamp", JVal.jtime 3)]) ∧
    (lookupField (do_GET { backend_name := "b5", server_port := 3004 }
        { path := "/a%20b/../c?x=1&y=%2F", headers := [], rfile := [] } 3)
        "path" = some (JVal.jstr "/a%20b/../c?x=1&y=%2F") ∧
     lookupField
        [("backend", JVal.jstr "b5"), ("port", JVal.jint 3004),
         ("path", JVal.jstr "/a%20b/../c?x=1&y=%2F"),
         ("method", JVal.jstr "POST"),
         ("body_length", JVal.jint 0), ("timestamp", JVal.jtime 3)]
        "path" = some (JVal.jstr "/a%20b/../c?x=1&y=%2F")) :=
  ⟨rfl, c5_path_verbatim { backend_name := "b5", server_port := 3004 }
    { path := "/a%20b/../c?x=1&y=%2F", headers := [], rfile := [] } 3 []
    [("backend", JVal.jstr "b5"), ("port", JVal.jint 3004),
     ("path", JVal.jstr "/a%20b/../c?x=1&y=%2F"),
     ("method", JVal.jstr "POST"),
     ("body_length", JVal.jint 0), ("timestamp", JVal.jtime 3)] rfl⟩

/-- C6: a GET response has exactly the keys backend, port, path, method,
timestamp (and in particular no `body_length`); a successful POST response
has exactly the keys backend, port, path, method, body_length, timestamp. -/
theorem c6_response_keys (srv : ServerState) (req : Request) (now : Int)
    (body : List Nat) (resp : List (String × JVal))
    (hpost : do_POST srv req now = Except.ok (body, resp)) :
    (do_GET srv req now).map Prod.fst
        = ["backend", "port", "path", "method", "timestamp"] ∧
    lookupField (do_GET srv req now) "body_length" = none ∧
    resp.map Prod.fst
        = ["backend", "port", "path", "method", "body_length", "timestamp"] := by
  obtain ⟨cl, hcl, hb, hr⟩ := do_POST_ok_inv _ _ _ _ _ hpost
  subst hr
  exact ⟨rfl, rfl, rfl⟩

/-- C6 witness: the theorem at one concrete GET/POST request pair. -/
theorem c6_response_keys_witness :
    do_POST { backend_name := "b6", server_port := 3005 }
        { path := "/k", headers := [], rfile := [] } 4
      = Except.ok ([],
        [("backend", JVal.jstr "b6"), ("port", JVal.jint 3005),
         ("path", JVal.jstr "/k"), ("method", JVal.jstr "POST"),
         ("body_length", JVal.jint 0), ("timestamp", JVal.jtime 4)]) ∧
    ((do_GET { backend_name := "b6", server_port := 3005 }
        { path := "/k", headers := [], rfile := [] } 4).map Prod.fst
        = ["backend", "port", "path", "method", "timestamp"] ∧
     lookupField (do_GET { backend_name := "b6", server_port := 3005 }
        { path := "/k", headers := [], rfile := [] } 4) "body_length" = none ∧
     ([("backend", JVal.jstr "b6"), ("port", JVal.jint 3005),
       ("path", JVal.jstr "/k"), ("method", JVal.jstr "POST"),
       ("body_length", JVal.jint 0),
       ("timestamp", JVal.jtime 4)] : List (String × JVal)).map Prod.fst
        = ["backend", "port", "path", "method", "body_length", "timestamp"]) :=
  ⟨rfl, c6_response_keys { backend_name := "b6", server_port := 3005 }
    { path := "/k", headers := [], rfile := [] } 4 []
    [("backend", JVal.jstr "b6"), ("port", JVal.jint 3005),
     ("path", JVal.jstr "/k"), ("method", JVal.jstr "POST"),
     ("body_length", JVal.jint 0), ("timestamp", JVal.jtime 4)] rfl⟩

/-- C7: a POST whose body has length `L` and whose `Content-Length` header
parses to exactly `L` reads the whole body and reports `body_length = L`. -/
theorem c7_correct_content_length (srv : ServerState) (req : Request)
    (now : Int) (s : String) (L : Nat)
    (hget : headersGet req.headers "Content-Length" = some s)
    (hp : pyInt s = some (L : Int)) (hlen : req.rfile.length = L) :
    ∃ resp, do_POST srv req now = Except.ok (req.rfile, resp) ∧
      lookupField resp "body_length" = some (JVal.jint (L : Int)) := by
  subst hlen
  have hcl : contentLength req.headers = some (req.rfile.length : Int) := by
    rw [contentLength_of_present req.headers s hget]; exact hp
  refine ⟨[("backend", JVal.jstr srv.backend_name),
           ("port", JVal.jint srv.server_port),
           ("path", JVal.jstr req.path),
           ("method", JVal.jstr "POST"),
           ("body_length", JVal.jint (req.rfile.length : Int)),
           ("timestamp", JVal.jtime now)], ?_, rfl⟩
  have htake : req.rfile.take ((req.rfile.length : Int)).toNat = req.rfile :=
    List.take_length req.rfile
  have hread : pyRead req.rfile (req.rfile.length : Int)
      = Except.ok req.rfile := by
    rw [pyRead_of_nonneg req.rfile _ (by omega), htake]
  exact do_POST_ok srv req now _ req.rfile hcl hread

/-- C7 witness: body `hello` (5 bytes) with header `Content-Length: 5`. -/
theorem c7_correct_content_length_witness :
    headersGet [("Content-Length", "5")] "Content-Length" = some "5" ∧
    pyInt "5" = some ((5 : Nat) : Int) ∧
    ([104, 101, 108, 108, 111] : List Nat).length = 5 ∧
    (∃ resp, do_POST { backend_name := "b7", server_port := 3006 }
        { path := "/ingest", headers := [("Content-Length", "5")],
          rfile := [104, 101, 108, 108, 111] } 7
        = Except.ok ([104, 101, 108, 108, 111], resp) ∧
      lookupField resp "body_length" = some (JVal.jint ((5 : Nat) : Int))) :=
  ⟨rfl, by decide, rfl, c7_correct_content_length
    { backend_name := "b7", server_port := 3006 }
    { path := "/ingest", headers := [("Content-Length", "5")],
      rfile := [104, 101, 108, 108, 111] } 7 "5" 5 rfl (by decide) rfl⟩

/-- C8: invoked with fewer than two argv entries (no port argument), the
entry point prints the usage lines — the first of which starts with
`Usage:` — and exits with status 1 without starting a server. -/
theorem c8_usage_exit (argv : List String) (h : argv.length < 2) :
    mainEntry argv = MainResult.usageExit usageLines 1 ∧
    "Usage:".data.isPrefixOf (usageLines.headD "").data = true := by
  cases argv with
  | nil => exact ⟨rfl, by decide⟩
  | cons a rest =>
      cases rest with
      | nil => exact ⟨rfl, by decide⟩
      | cons b rest2 => simp only [List.length_cons] at h; omega

/-- C8 witness: the theorem at `argv = ["backend_server.py"]`. -/
theorem c8_usage_exit_witness :
    (["backend_server.py"] : List String).length < 2 ∧
    (mainEntry ["backend_server.py"] = MainResult.usageExit usageLines 1 ∧
     "Usage:".data.isPrefixOf (usageLines.headD "").data = true) :=
  ⟨by decide, c8_usage_exit ["backend_server.py"] (by decide)⟩

/-- C9: a first argument that `int(...)` cannot parse makes the entry point
end in an uncaught `ValueError`, not in the usage-message exit. -/
theorem c9_nonint_port_value_error (prog arg : String) (rest : List String)
    (h : pyInt arg = none) :
    mainEntry (prog :: arg :: rest) = MainResult.valueError ∧
    mainEntry (prog :: arg :: rest) ≠ MainResult.usageExit usageLines 1 := by
  have he : mainEntry (prog :: arg :: rest) = MainResult.valueError := by
    simp only [mainEntry, h]
  exact ⟨he, by rw [he]; exact fun hc => MainResult.noConfusion hc⟩

/-- C9 witness: the theorem at `argv = ["backend_server.py", "abc"]`. -/
theorem c9_nonint_port_value_error_witness :
    pyInt "abc" = none ∧
    (mainEntry ["backend_server.py", "abc"] = MainResult.valueError ∧
     mainEntry ["backend_server.py", "abc"]
        ≠ MainResult.usageExit usageLines 1) :=
  ⟨by decide, c9_nonint_port_value_error "backend_server.py" "abc" []
    (by decide)⟩

/-- C10 counterexample: with `Content-Length: -5`, `int` parses `-5` but
`rfile.read(-5)` raises `ValueError` (a `BufferedReader` rejects read sizes
below `-1`), so the handler crashes and no response reports
`body_length = -5`. -/
theorem c10_counterexample :
    pyInt "-5" = some (-5) ∧
    do_POST { backend_name := "b10", server_port := 3009 }
        { path := "/neg", headers := [("Content-Length", "-5")],
          rfile := [1, 2] } 9
      = Except.error PyError.valueError :=
  ⟨by decide, rfl⟩

/-- C10 (amended): a `Content-Length` header parsing to a negative integer
is reported verbatim as `body_length` only for the single value `-1`, where
`read(-1)` drains the stream to EOF; for every other negative value
`rfile.read` raises `ValueError` and the handler crashes with no
response. -/
theorem c10_negative_content_length (srv : ServerState) (req : Request)
    (now : Int) (s : String) (n : Int)
    (hget : headersGet req.headers "Content-Length" = some s)
    (hp : pyInt s = some n) (hneg : n < 0) :
    (n < -1 → do_POST srv req now = Except.error PyError.valueError) ∧
    (n = -1 → ∃ resp, do_POST srv req now = Except.ok (req.rfile, resp) ∧
      lookupField resp "body_length" = some (JVal.jint (-1))) := by
  have hcl : contentLength req.headers = some n := by
    rw [contentLength_of_present req.headers s hget]; exact hp
  constructor
  · intro hlt
    exact do_POST_read_error srv req now n PyError.valueError hcl
      (pyRead_of_lt_neg_one req.rfile n hlt)
  · intro he
    subst he
    refine ⟨[("backend", JVal.jstr srv.backend_name),
             ("port", JVal.jint srv.server_port),
             ("path", JVal.jstr req.path),
             ("method", JVal.jstr "POST"),
             ("body_length", JVal.jint (-1)),
             ("timestamp", JVal.jtime now)], ?_, rfl⟩
    exact do_POST_ok srv req now (-1) req.rfile hcl (pyRead_neg_one req.rfile)

/-- C10 witness: the amended theorem at `Content-Length: -5` (the crash
branch) and at `Content-Length: -1` (the only accepted negative value,
reported verbatim). -/
theorem c10_negative_content_length_witness :
    (headersGet [("Content-Length", "-5")] "Content-Length" = some "-5" ∧
     pyInt "-5" = some (-5) ∧ ((-5 : Int) < 0) ∧ ((-5 : Int) < -1) ∧
     do_POST { backend_name := "b10", server_port := 3009 }
        { path := "/negfive", headers := [("Content-Length", "-5")],
          rfile := [1, 2] } 9
        = Except.error PyError.valueError) ∧
    (pyInt "-1" = some (-1) ∧ ((-1 : Int) < 0) ∧
     (∃ resp, do_POST { backend_name := "b10", server_port := 3009 }
        { path := "/negone", headers := [("Content-Length", "-1")],
          rfile := [3, 4] } 9
        = Except.ok ([3, 4], resp) ∧
      lookupField resp "body_length" = some (JVal.jint (-1)))) :=
  ⟨⟨rfl, by decide, by decide, by decide,
    (c10_negative_content_length { backend_name := "b10", server_port := 3009 }
      { path := "/negfive", headers := [("Content-Length", "-5")],
        rfile := [1, 2] } 9 "-5" (-5) rfl (by decide) (by decide)).1
      (by decide)⟩,
   ⟨by decide, by decide,
    (c10_negative_content_length { backend_name := "b10", server_port := 3009 }
      { path := "/negone", headers := [("Content-Length", "-1")],
        rfile := [3, 4] } 9 "-1" (-1) rfl (by decide) (by decide)).2
      rfl⟩⟩

end Sentinel
